import Mathlib

/-!
Verification of the octoface GitHub publication workflow.

This file gives a shallow embedding of the functions in
`octoface/github.py`, `octoface/utils.py` and `octoface/cli.py` that
implement the publication workflow: the catalog merge
(`update_model_map`), the capability check (`has_push_access`), branch
creation (`create_branch`, `create_branch_in_fork`), the two publication
paths of `create_model_pr`, the high-level wrapper
`utils.create_pull_request`, and the exit-code behaviour of the CLI
commands.  Network calls are modelled by passing their results in as
explicit inputs; the side effects a run performs are recorded as an
event trace.  Python truthiness of optional strings (None and "" are
falsy) is modelled by `truthyOptStr`.
-/

namespace Octoface

/-- Python truthiness of an optional string: `None` and `""` are falsy. -/
def truthyOptStr : Option String → Bool
  | none => false
  | some s => !(s == "")

/-- The metadata dict built by `utils.generate_model_metadata`
(utils.py lines 115-123): keys name, description, author, tags,
ipfs_cid, size_mb, created_at.  `size_mb` is a Python float; the
workflow never computes with it, so it is carried as a rational. -/
structure Metadata where
  name : String
  description : String
  author : String
  tags : List String
  ipfs_cid : String
  size_mb : Rat
  created_at : String
  deriving DecidableEq

/-- An entry of the catalog `models/model-map.json`: the metadata
fields plus the `path` natural key.  An existing entry whose dict lacks
the "path" key is read by the code as `model.get("path", "")`; such an
entry is represented here by `path = ""`. -/
structure CatalogEntry where
  name : String
  author : String
  description : String
  tags : List String
  ipfs_cid : String
  size_mb : Rat
  created_at : String
  path : String
  deriving DecidableEq

/-- The model entry built in `update_model_map` (github.py lines
714-723): the metadata fields plus
`path = "models/<github_username>/<model_name>"`. -/
def mkModelEntry (metadata : Metadata) (github_username model_name : String) :
    CatalogEntry :=
  { name := metadata.name
    author := metadata.author
    description := metadata.description
    tags := metadata.tags
    ipfs_cid := metadata.ipfs_cid
    size_mb := metadata.size_mb
    created_at := metadata.created_at
    path := "models/" ++ github_username ++ "/" ++ model_name }

/-- The merge loop of `update_model_map` (github.py lines 725-737):
scan the list for the first entry whose path equals the new entry''s
path and replace it in place; if no entry matches, append the new entry
at the end. -/
def mergeModels (entry : CatalogEntry) : List CatalogEntry → List CatalogEntry
  | [] => [entry]
  | m :: ms => if m.path = entry.path then entry :: ms else m :: mergeModels entry ms

/-- Result of decoding the fetched catalog content with `json.loads`
(github.py lines 703-707): either a parsed model list or a
`JSONDecodeError`, which the code downgrades to an empty catalog. -/
inductive CatalogContent where
  | valid (models : List CatalogEntry)
  | invalid
  deriving DecidableEq

/-- Result of the GET for `models/model-map.json` on the working branch
(github.py lines 692-711): a 200 response carrying the decoded content
and the blob sha, or any other status, in which case the catalog is
treated as absent. -/
inductive FetchResult where
  | missing
  | found (content : CatalogContent) (sha : Option String)
  deriving DecidableEq

/-- The PUT request body assembled by `update_model_map` (github.py
lines 739-756).  The serialized `content` is represented structurally
by the merged model list. -/
structure CatalogWrite where
  message : String
  models : List CatalogEntry
  branch : String
  sha : Option String
  deriving DecidableEq

/-- `github.update_model_map` (github.py lines 669-767): fetch the
catalog on the working branch, decode it (malformed JSON and a non-200
response both yield an empty catalog), merge the new entry by path,
and write the result back, attaching the blob sha when one was read.
Returns the boolean result (true iff the PUT status is 200 or 201)
together with the write request. -/
def update_model_map (fetch : FetchResult) (metadata : Metadata)
    (github_username model_name branch : String) (putStatus : Nat) :
    Bool × CatalogWrite :=
  let model_map : List CatalogEntry :=
    match fetch with
    | .missing => []
    | .found c _ => match c with
      | .valid ms => ms
      | .invalid => []
  let model_map_sha : Option String :=
    match fetch with
    | .missing => none
    | .found _ sha => sha
  let model_entry := mkModelEntry metadata github_username model_name
  (decide (putStatus = 200 ∨ putStatus = 201),
   { message := "Update model map with " ++ metadata.name
     models := mergeModels model_entry model_map
     branch := branch
     sha := if truthyOptStr model_map_sha then model_map_sha else none })

/-- When no entry of the list has the new entry''s path, the merge loop
appends the new entry at the end. -/
theorem mergeModels_eq_append (entry : CatalogEntry) (ms : List CatalogEntry)
    (h : ∀ m ∈ ms, m.path ≠ entry.path) :
    mergeModels entry ms = ms ++ [entry] := by
  induction ms with
  | nil => rfl
  | cons m rest ih =>
    have hm : m.path ≠ entry.path := h m (List.mem_cons_self m rest)
    simp only [mergeModels, if_neg hm, List.cons_append, List.cons.injEq, true_and]
    exact ih fun x hx => h x (List.mem_cons_of_mem m hx)

/-- When the path list of the catalog has no duplicates and the entry
at index i has the new entry''s path, the merge loop replaces exactly
the entry at index i. -/
theorem mergeModels_eq_set (entry : CatalogEntry) (ms : List CatalogEntry)
    (i : Nat) (hi : i < ms.length)
    (hnd : (ms.map CatalogEntry.path).Nodup)
    (hp : (ms.get ⟨i, hi⟩).path = entry.path) :
    mergeModels entry ms = ms.set i entry := by
  induction ms generalizing i with
  | nil => exact absurd hi (Nat.not_lt_zero i)
  | cons m rest ih =>
    rcases i with _ | j
    · have hm : m.path = entry.path := hp
      simp only [mergeModels, if_pos hm, List.set]
    · have hj : j < rest.length := Nat.lt_of_succ_lt_succ hi
      have hpj : (rest.get ⟨j, hj⟩).path = entry.path := hp
      have hnotmem : m.path ∉ rest.map CatalogEntry.path :=
        (List.nodup_cons.mp hnd).1
      have hm : m.path ≠ entry.path := by
        intro he
        exact hnotmem (by
          rw [he, ← hpj]
          exact List.mem_map_of_mem CatalogEntry.path (rest.get_mem j hj))
      simp only [mergeModels, if_neg hm, List.set, List.cons.injEq, true_and]
      exact ih j hj (List.nodup_cons.mp hnd).2 hpj

/-- Replacing the entry at index i by an entry with the same path
leaves the list of paths unchanged. -/
theorem map_path_set (ms : List CatalogEntry) (i : Nat) (hi : i < ms.length)
    (entry : CatalogEntry) (hp : (ms.get ⟨i, hi⟩).path = entry.path) :
    (ms.set i entry).map CatalogEntry.path = ms.map CatalogEntry.path := by
  induction ms generalizing i with
  | nil => rfl
  | cons m rest ih =>
    rcases i with _ | j
    · have hm : m.path = entry.path := hp
      simp [List.set, hm]
    · have hj : j < rest.length := Nat.lt_of_succ_lt_succ hi
      simp only [List.set, List.map_cons, List.cons.injEq, true_and]
      exact ih j hj hp

/-- Claim C1: for every catalog C and new entry E whose path equals no
entry''s path in C, the catalog merge performed by `update_model_map`
produces C with E appended at the end, leaving every existing entry
unchanged and in its original order. -/
theorem c1_update_model_map_appends_new_path
    (C : List CatalogEntry) (metadata : Metadata)
    (u n branch : String) (sha : Option String) (put : Nat)
    (h : ∀ m ∈ C, m.path ≠ (mkModelEntry metadata u n).path) :
    (update_model_map (.found (.valid C) sha) metadata u n branch put).2.models
      = C ++ [mkModelEntry metadata u n] := by
  simp only [update_model_map]
  exact mergeModels_eq_append _ _ h

/-- A sample pre-existing catalog entry under a different path. -/
def entryBobOld : CatalogEntry :=
  { name := "old", author := "bob", description := "d", tags := ["t"],
    ipfs_cid := "cid0", size_mb := 0, created_at := "2024",
    path := "models/bob/old" }

/-- A sample pre-existing catalog entry at the path that the sample new
entry targets. -/
def entryAliceNewOld : CatalogEntry :=
  { name := "old", author := "alice", description := "d", tags := [],
    ipfs_cid := "cid0", size_mb := 0, created_at := "2024",
    path := "models/alice/new" }

/-- Sample metadata for the new entry. -/
def metaNew : Metadata :=
  { name := "New", description := "nd", author := "alice", tags := [],
    ipfs_cid := "cid1", size_mb := 0, created_at := "2025" }

theorem c1_witness :
    (∀ m ∈ [entryBobOld],
        CatalogEntry.path m ≠ (mkModelEntry metaNew "alice" "new").path)
    ∧ (update_model_map (.found (.valid [entryBobOld]) (some "sha0"))
        metaNew "alice" "new" "branch-1" 200).2.models
      = [entryBobOld, mkModelEntry metaNew "alice" "new"] := by
  refine ⟨by decide, ?_⟩
  exact c1_update_model_map_appends_new_path [entryBobOld] metaNew
    "alice" "new" "branch-1" (some "sha0") 200 (by decide)

/-- Claim C2: for every catalog C whose paths are pairwise distinct
(the stated catalog invariant) containing at index i an entry whose
path equals the new entry''s computed path models/username/model-slug,
the merge performed by `update_model_map` yields a catalog of the same
length in which the entry at index i is replaced and every other entry
is unchanged in place and order, and the result again holds at most
one entry per path. -/
theorem c2_update_model_map_replaces_in_place
    (C : List CatalogEntry) (metadata : Metadata)
    (u n branch : String) (sha : Option String) (put : Nat)
    (i : Nat) (hi : i < C.length)
    (hnd : (C.map CatalogEntry.path).Nodup)
    (hp : (C.get ⟨i, hi⟩).path = (mkModelEntry metadata u n).path) :
    (update_model_map (.found (.valid C) sha) metadata u n branch put).2.models
        = C.set i (mkModelEntry metadata u n)
    ∧ (update_model_map (.found (.valid C) sha) metadata u n branch put).2.models.length
        = C.length
    ∧ ((update_model_map (.found (.valid C) sha) metadata u n branch put).2.models.map
        CatalogEntry.path).Nodup := by
  have hset : (update_model_map (.found (.valid C) sha) metadata u n branch put).2.models
      = C.set i (mkModelEntry metadata u n) := by
    simp only [update_model_map]
    exact mergeModels_eq_set _ _ i hi hnd hp
  refine ⟨hset, ?_, ?_⟩
  · rw [hset, List.length_set]
  · rw [hset, map_path_set C i hi _ hp]
    exact hnd

theorem c2_witness :
    (([entryAliceNewOld, entryBobOld].map CatalogEntry.path).Nodup)
    ∧ (update_model_map
        (.found (.valid [entryAliceNewOld, entryBobOld]) (some "sha0"))
        metaNew "alice" "new" "branch-1" 200).2.models
      = [mkModelEntry metaNew "alice" "new", entryBobOld] := by
  refine ⟨by decide, ?_⟩
  exact (c2_update_model_map_replaces_in_place [entryAliceNewOld, entryBobOld]
    metaNew "alice" "new" "branch-1" (some "sha0") 200 0 (by decide)
    (by decide) (by decide)).1

/-- Claim C6: when the catalog file exists on the working branch but
its content is not valid JSON, `update_model_map` proceeds as if the
catalog were empty: it writes back a catalog containing exactly the
single new entry, attaches the existing file''s blob sha to the write,
and returns success when the PUT succeeds. -/
theorem c6_update_model_map_invalid_json
    (metadata : Metadata) (u n branch : String) (s : String)
    (hs : s ≠ "") (put : Nat) :
    (update_model_map (.found .invalid (some s)) metadata u n branch put).2.models
        = [mkModelEntry metadata u n]
    ∧ (update_model_map (.found .invalid (some s)) metadata u n branch put).2.sha
        = some s
    ∧ (put = 200 →
        (update_model_map (.found .invalid (some s)) metadata u n branch put).1 = true) := by
  refine ⟨rfl, ?_, ?_⟩
  · simp [update_model_map, truthyOptStr, hs]
  · intro hput
    simp [update_model_map, hput]

theorem c6_witness :
    (update_model_map (.found .invalid (some "abc123"))
        metaNew "alice" "new" "branch-1" 200).2.models
      = [mkModelEntry metaNew "alice" "new"] :=
  (c6_update_model_map_invalid_json metaNew "alice" "new" "branch-1" "abc123"
    (by decide) 200).1

/-- Result of one `requests` call: either a raised transport exception
or an HTTP response with a status code and a decoded body. -/
inductive Net (α : Type) where
  | exn
  | resp (status : Nat) (body : α)
  deriving DecidableEq

/-- The "permissions" object of a repository response; a key absent
from the dict reads as False via `.get(_, False)`. -/
structure Permissions where
  push : Bool
  admin : Bool
  deriving DecidableEq

/-- `github.has_push_access` (github.py lines 869-896): GET the
repository; on a 200 response read `permissions` (defaulting to an
empty dict, here `none`) and return push or admin; any other status
and any raised exception return False. -/
def has_push_access (r : Net (Option Permissions)) : Bool :=
  match r with
  | .exn => false
  | .resp status permsOpt =>
    if status = 200 then
      (permsOpt.getD ⟨false, false⟩).push || (permsOpt.getD ⟨false, false⟩).admin
    else false

/-- Claim C5: `has_push_access` returns true iff the lookup returns
HTTP 200 with push or admin true; push false with admin true yields
true, push false with admin false yields false; every non-200 response
and every raised exception yield false. -/
theorem c5_has_push_access_fails_closed :
    (∀ permsOpt : Option Permissions,
        has_push_access (.resp 200 permsOpt)
          = ((permsOpt.getD ⟨false, false⟩).push
              || (permsOpt.getD ⟨false, false⟩).admin))
    ∧ has_push_access (.resp 200 (some ⟨false, true⟩)) = true
    ∧ has_push_access (.resp 200 (some ⟨false, false⟩)) = false
    ∧ (∀ (status : Nat) (permsOpt : Option Permissions),
        status ≠ 200 → has_push_access (.resp status permsOpt) = false)
    ∧ has_push_access (.exn : Net (Option Permissions)) = false := by
  refine ⟨fun permsOpt => by simp [has_push_access], rfl, rfl, ?_, rfl⟩
  intro status permsOpt hs
  simp [has_push_access, hs]

theorem c5_witness :
    has_push_access (.resp 404 (some ⟨true, true⟩)) = false :=
  c5_has_push_access_fails_closed.2.2.2.1 404 (some ⟨true, true⟩) (by decide)

/-- `github.create_branch` (github.py lines 531-602): a pre-check GET
for the branch returning 200 is treated as success; otherwise the base
branch ref is resolved (failing on a non-200 status or a falsy sha) and
the new ref is created, where status 201 and the 409 conflict (branch
already exists) both count as success; a raised exception anywhere
returns False. -/
def create_branch (check : Net Unit) (getRef : Net (Option String))
    (createRef : Net Unit) : Bool :=
  match check with
  | .exn => false
  | .resp checkStatus _ =>
    if checkStatus = 200 then true
    else
      match getRef with
      | .exn => false
      | .resp status base_sha =>
        if status = 200 then
          if truthyOptStr base_sha then
            match createRef with
            | .exn => false
            | .resp createStatus _ => createStatus == 201 || createStatus == 409
          else false
        else false

/-- `github.create_branch_in_fork` (github.py lines 255-323): resolve
the fork''s main ref, retrying once after a delay when the first GET is
not a 200; then create the ref in the fork, where statuses 200, 201 and
422 (branch already exists) all count as success. -/
def create_branch_in_fork (getRef getRefRetry : Net (Option String))
    (createRef : Net Unit) : Bool :=
  match getRef with
  | .exn => false
  | .resp s1 b1 =>
    match (if s1 = 200 then Net.resp s1 b1 else getRefRetry) with
    | .exn => false
    | .resp status base_sha =>
      if status = 200 then
        if truthyOptStr base_sha then
          match createRef with
          | .exn => false
          | .resp createStatus _ =>
            createStatus == 200 || createStatus == 201 || createStatus == 422
        else false
      else false

/-- Claim C7: both branch-creation variants treat an already-existing
ref as success: `create_branch` returns true when the pre-check finds
the branch (status 200) whatever the remaining calls would do, and when
ref creation reports a 409 conflict; `create_branch_in_fork` returns
true when ref creation reports 422 (branch already exists). -/
theorem c7_existing_branch_is_success :
    (∀ (getRef : Net (Option String)) (createRef : Net Unit),
        create_branch (.resp 200 ()) getRef createRef = true)
    ∧ (∀ (checkStatus : Nat) (sha : String), checkStatus ≠ 200 → sha ≠ "" →
        create_branch (.resp checkStatus ()) (.resp 200 (some sha))
          (.resp 409 ()) = true)
    ∧ (∀ (getRefRetry : Net (Option String)) (sha : String), sha ≠ "" →
        create_branch_in_fork (.resp 200 (some sha)) getRefRetry
          (.resp 422 ()) = true) := by
  refine ⟨fun getRef createRef => by simp [create_branch], ?_, ?_⟩
  · intro checkStatus sha hcs hsha
    simp [create_branch, hcs, truthyOptStr, hsha]
  · intro getRefRetry sha hsha
    simp [create_branch_in_fork, truthyOptStr, hsha]

theorem c7_witness :
    create_branch (.resp 404 ()) (.resp 200 (some "abc"))
        (.resp 409 ()) = true
    ∧ create_branch_in_fork (.resp 200 (some "abc")) (.exn)
        (.resp 422 ()) = true :=
  ⟨c7_existing_branch_is_success.2.1 404 "abc" (by decide) (by decide),
   c7_existing_branch_is_success.2.2 .exn "abc" (by decide)⟩

/-- One external side-effecting call performed by the publication
workflow, recorded in order of execution. -/
inductive Event where
  | checkRepoHasCommit
  | createInitialCommit
  | createBranch (branch base : String)
  | createFile (path message branch : String)
  | updateModelMap (branch : String)
  | createPR (head base : String)
  | getOrCreateFork
  | createBranchInFork (branch username : String)
  | createFileInFork (path message branch username : String)
  | createPRFromFork (head base : String)
  deriving DecidableEq

/-- The JSON body of a create-pull-request call. -/
structure PrRequest where
  title : String
  body : String
  head : String
  base : String
  deriving DecidableEq

/-- The request built by `github.create_pull_request` (github.py lines
790-795): head is the branch name, base is main. -/
def create_pull_request_request (branch title body : String) : PrRequest :=
  { title := title, body := body, head := branch, base := "main" }

/-- The request built by `github.create_pull_request_from_fork`
(github.py lines 412-417): head is username:branch, base is main on the
upstream repository. -/
def create_pull_request_from_fork_request (branch github_username title body : String) :
    PrRequest :=
  { title := title, body := body, head := github_username ++ ":" ++ branch,
    base := "main" }

/-- The slug `model_name.lower().replace(" ", "-")` (github.py line
55): lowercase every character, then replace each space by a hyphen.
Both steps are modelled per character over the string''s data. -/
def slugify (model_name : String) : String :=
  String.mk ((model_name.data.map Char.toLower).map
    fun c => if c = ' ' then '-' else c)

/-- The branch name `add-model-<slug>-<timestamp>` (github.py line
56). -/
def branchName (model_name : String) (timestamp : Nat) : String :=
  "add-model-" ++ slugify model_name ++ "-" ++ toString timestamp

/-- The PR title built by `create_model_pr`. -/
def prTitle (model_name : String) : String := "Add model: " ++ model_name

/-- The PR body built by `create_model_pr`; a falsy description reads
as "No description provided". -/
def prBody (model_name github_username description ipfs_cid : String) : String :=
  "This PR adds the " ++ model_name ++ " model by @" ++ github_username
    ++ ".\n\nModel description: "
    ++ (if description = "" then "No description provided" else description)
    ++ "\n\nIPFS CID: `" ++ ipfs_cid ++ "`"

/-- Results of the external calls `create_model_pr` and
`utils.create_pull_request` can make, passed in as an environment:
whether the token is set, the username lookup, the capability check
result, truthiness of the generated metadata, whether the repository
already has a main branch, and the outcome of each write call. -/
structure Env where
  tokenPresent : Bool
  username : Option String
  hasPush : Bool
  metadataOk : Bool
  repoHasCommit : Bool
  initialCommitOk : Bool
  branchOk : Bool
  fileOk : String → Bool
  modelMapOk : Bool
  prUrl : Option String
  forkOk : Bool
  forkBranchOk : Bool
  forkFileOk : String → Bool
  forkPrUrl : Option String
  githubOk : Bool

/-- The three files written on the direct-push path (github.py lines
98-114), in source order, with their commit messages. -/
def files_to_create (model_dir model_name : String) : List (String × String) :=
  [(model_dir ++ "/README.md", "Add README for " ++ model_name),
   (model_dir ++ "/metadata.json", "Add metadata for " ++ model_name),
   (model_dir ++ "/tree.json", "Add file tree for " ++ model_name)]

/-- The two files written on the fork path (github.py lines 169-180),
in source order; no tree.json. -/
def fork_files_to_create (model_dir model_name : String) : List (String × String) :=
  [(model_dir ++ "/README.md", "Add README for " ++ model_name),
   (model_dir ++ "/metadata.json", "Add metadata for " ++ model_name)]

/-- The loop over `files_to_create` (github.py lines 117-120): one
separate `create_file` call per file; a failed call aborts the
remaining writes. -/
def writeFiles (ok : String → Bool) (branch : String) :
    List (String × String) → Bool × List Event
  | [] => (true, [])
  | (p, msg) :: rest =>
    if ok p then
      ((writeFiles ok branch rest).1,
        .createFile p msg branch :: (writeFiles ok branch rest).2)
    else (false, [.createFile p msg branch])

/-- The loop over the fork file list (github.py lines 183-186): one
`create_file_in_fork` call per file; a failed call aborts the rest. -/
def writeForkFiles (ok : String → Bool) (branch username : String) :
    List (String × String) → Bool × List Event
  | [] => (true, [])
  | (p, msg) :: rest =>
    if ok p then
      ((writeForkFiles ok branch username rest).1,
        .createFileInFork p msg branch username
          :: (writeForkFiles ok branch username rest).2)
    else (false, [.createFileInFork p msg branch username])

/-- The direct-push path after the initial-commit bootstrap (github.py
lines 84-141): create the branch from main, write the three files,
merge the catalog, open the PR with head = branch and base = main.
`evs` holds the events already performed. -/
def directAfterInit (env : Env) (username branch model_dir model_name description
    ipfs_cid : String) (evs : List Event) : Option String × List Event :=
  let evs1 := evs ++ [Event.createBranch branch "main"]
  if !env.branchOk then (none, evs1)
  else
    let w := writeFiles env.fileOk branch (files_to_create model_dir model_name)
    let evs2 := evs1 ++ w.2
    if !w.1 then (none, evs2)
    else
      let evs3 := evs2 ++ [Event.updateModelMap branch]
      if !env.modelMapOk then (none, evs3)
      else
        let req := create_pull_request_request branch (prTitle model_name)
          (prBody model_name username description ipfs_cid)
        (env.prUrl, evs3 ++ [Event.createPR req.head req.base])

/-- The direct-push path (github.py lines 75-141): check whether the
repository has a main branch and bootstrap an initial commit when it
does not, then continue with `directAfterInit`. -/
def directFlow (env : Env) (username branch model_dir model_name description
    ipfs_cid : String) : Option String × List Event :=
  if env.repoHasCommit then
    directAfterInit env username branch model_dir model_name description
      ipfs_cid [Event.checkRepoHasCommit]
  else if env.initialCommitOk then
    directAfterInit env username branch model_dir model_name description
      ipfs_cid [Event.checkRepoHasCommit, Event.createInitialCommit]
  else (none, [Event.checkRepoHasCommit, Event.createInitialCommit])

/-- The fork path (github.py lines 146-203): locate or create the
fork, create the branch in the fork, write the two files into the fork
branch, and open the PR with head = username:branch and base = main; no
catalog merge is performed. -/
def forkFlow (env : Env) (username branch model_dir model_name description
    ipfs_cid : String) : Option String × List Event :=
  if !env.forkOk then (none, [Event.getOrCreateFork])
  else
    let evs1 := [Event.getOrCreateFork, Event.createBranchInFork branch username]
    if !env.forkBranchOk then (none, evs1)
    else
      let w := writeForkFiles env.forkFileOk branch username
        (fork_files_to_create model_dir model_name)
      let evs2 := evs1 ++ w.2
      if !w.1 then (none, evs2)
      else
        let req := create_pull_request_from_fork_request branch username
          (prTitle model_name) (prBody model_name username description ipfs_cid)
        (env.forkPrUrl, evs2 ++ [Event.createPRFromFork req.head req.base])

/-- `github.create_model_pr` (github.py lines 23-207): require the
token and the username, compute the branch name and slug, generate the
metadata, then follow the direct-push path when the capability check
reported push access and the fork path otherwise.  Returns the PR URL
(or none) and the trace of external calls. -/
def create_model_pr (env : Env) (model_name description ipfs_cid : String)
    (timestamp : Nat) : Option String × List Event :=
  if !env.tokenPresent then (none, [])
  else
    match env.username with
    | none => (none, [])
    | some username =>
      let branch := branchName model_name timestamp
      if !env.metadataOk then (none, [])
      else
        let model_dir := "models/" ++ username ++ "/" ++ slugify model_name
        if env.hasPush then
          directFlow env username branch model_dir model_name description ipfs_cid
        else
          forkFlow env username branch model_dir model_name description ipfs_cid

/-- The key list of the dict literal built by
`utils.generate_model_metadata` (utils.py lines 115-123); the size
calculation only updates the existing size_mb key. -/
def generate_model_metadata_keys : List String :=
  ["name", "description", "author", "tags", "ipfs_cid", "size_mb", "created_at"]

/-- Truthiness of `model_tree` in `utils.create_pull_request`
(utils.py lines 247-250): the tree is generated only when the metadata
dict has a "path" key, otherwise it is the empty (falsy) list. -/
def wrapper_model_tree_truthy (metadataKeys : List String)
    (genTreeTruthy : Bool) : Bool :=
  if metadataKeys.contains "path" then genTreeTruthy else false

/-- The file list built by `utils.create_pull_request` on its direct
path (utils.py lines 271-290): README.md and metadata.json always,
tree.json only when `model_tree` is truthy. -/
def wrapper_files_to_create (metadataKeys : List String) (genTreeTruthy : Bool)
    (model_dir name : String) : List (String × String) :=
  if wrapper_model_tree_truthy metadataKeys genTreeTruthy then
    [(model_dir ++ "/README.md", "Add README for " ++ name),
     (model_dir ++ "/metadata.json", "Add metadata for " ++ name),
     (model_dir ++ "/tree.json", "Add file tree for " ++ name)]
  else
    [(model_dir ++ "/README.md", "Add README for " ++ name),
     (model_dir ++ "/metadata.json", "Add metadata for " ++ name)]

/-- The direct path of `utils.create_pull_request` after the bootstrap
(utils.py lines 261-312); identical to `directAfterInit` except that
the file list is `wrapper_files_to_create`. -/
def wrapperDirectAfterInit (env : Env) (username branch model_dir name description
    ipfs_cid : String) (metadataKeys : List String) (genTreeTruthy : Bool)
    (evs : List Event) : Option String × List Event :=
  let evs1 := evs ++ [Event.createBranch branch "main"]
  if !env.branchOk then (none, evs1)
  else
    let w := writeFiles env.fileOk branch
      (wrapper_files_to_create metadataKeys genTreeTruthy model_dir name)
    let evs2 := evs1 ++ w.2
    if !w.1 then (none, evs2)
    else
      let evs3 := evs2 ++ [Event.updateModelMap branch]
      if !env.modelMapOk then (none, evs3)
      else
        let req := create_pull_request_request branch (prTitle name)
          (prBody name username description ipfs_cid)
        (env.prUrl, evs3 ++ [Event.createPR req.head req.base])

/-- `utils.create_pull_request` (utils.py lines 194-368): the
high-level wrapper around the PR creation process.  It additionally
tests GitHub API access up front; its direct path writes tree.json only
when the metadata dict has a "path" key; its fork path is the same as
the one of `create_model_pr`. -/
def utils_create_pull_request (env : Env) (metadataKeys : List String)
    (genTreeTruthy : Bool) (name description ipfs_cid : String)
    (timestamp : Nat) : Option String × List Event :=
  if !env.tokenPresent then (none, [])
  else
    match env.username with
    | none => (none, [])
    | some username =>
      let branch := branchName name timestamp
      if !env.githubOk then (none, [])
      else
        let model_dir := "models/" ++ username ++ "/" ++ slugify name
        if env.hasPush then
          if env.repoHasCommit then
            wrapperDirectAfterInit env username branch model_dir name description
              ipfs_cid metadataKeys genTreeTruthy [Event.checkRepoHasCommit]
          else if env.initialCommitOk then
            wrapperDirectAfterInit env username branch model_dir name description
              ipfs_cid metadataKeys genTreeTruthy
              [Event.checkRepoHasCommit, Event.createInitialCommit]
          else (none, [Event.checkRepoHasCommit, Event.createInitialCommit])
        else
          forkFlow env username branch model_dir name description ipfs_cid

/-- When every file write succeeds, the direct write loop reports
success and performs one createFile call per listed file, in order. -/
theorem writeFiles_all_ok (ok : String → Bool) (branch : String)
    (l : List (String × String)) (h : ∀ p, ok p = true) :
    writeFiles ok branch l
      = (true, l.map fun pm => Event.createFile pm.1 pm.2 branch) := by
  induction l with
  | nil => rfl
  | cons a rest ih =>
    obtain ⟨p, m⟩ := a
    simp [writeFiles, h p, ih]

/-- When every file write succeeds, the fork write loop reports
success and performs one createFileInFork call per listed file, in
order. -/
theorem writeForkFiles_all_ok (ok : String → Bool) (branch username : String)
    (l : List (String × String)) (h : ∀ p, ok p = true) :
    writeForkFiles ok branch username l
      = (true, l.map fun pm => Event.createFileInFork pm.1 pm.2 branch username) := by
  induction l with
  | nil => rfl
  | cons a rest ih =>
    obtain ⟨p, m⟩ := a
    simp [writeForkFiles, h p, ih]

/-- Every event performed by the fork write loop is a createFileInFork
call. -/
theorem writeForkFiles_events (ok : String → Bool) (branch username : String)
    (l : List (String × String)) (e : Event)
    (he : e ∈ (writeForkFiles ok branch username l).2) :
    ∃ p m, e = Event.createFileInFork p m branch username := by
  induction l with
  | nil => simp [writeForkFiles] at he
  | cons a rest ih =>
    obtain ⟨p, m⟩ := a
    by_cases h : ok p
    · simp only [writeForkFiles, h, if_true, List.mem_cons] at he
      rcases he with he | he
      · exact ⟨p, m, he⟩
      · exact ih he
    · simp only [writeForkFiles, h, if_false, Bool.false_eq_true,
        List.mem_singleton] at he
      exact ⟨p, m, he⟩

/-- The fork path never performs a catalog merge. -/
theorem updateModelMap_notin_forkFlow (env : Env)
    (username branch model_dir model_name description ipfs_cid br : String) :
    Event.updateModelMap br ∉
      (forkFlow env username branch model_dir model_name description ipfs_cid).2 := by
  intro hmem
  by_cases hf : env.forkOk
  · by_cases hb : env.forkBranchOk
    · by_cases hok : (writeForkFiles env.forkFileOk branch username
          (fork_files_to_create model_dir model_name)).1 = true
      · simp [forkFlow, hf, hb, hok] at hmem
        obtain ⟨p, m, hpm⟩ := writeForkFiles_events _ _ _ _ _ hmem
        exact Event.noConfusion hpm
      · simp [forkFlow, hf, hb, hok] at hmem
        obtain ⟨p, m, hpm⟩ := writeForkFiles_events _ _ _ _ _ hmem
        exact Event.noConfusion hpm
    · simp [forkFlow, hf, hb] at hmem
  · simp [forkFlow, hf] at hmem

/-- On every run without push access, `create_model_pr` never performs
a catalog merge, whatever the other call results are. -/
theorem updateModelMap_notin_create_model_pr (env : Env)
    (model_name description ipfs_cid br : String) (timestamp : Nat)
    (hpush : env.hasPush = false) :
    Event.updateModelMap br
      ∉ (create_model_pr env model_name description ipfs_cid timestamp).2 := by
  intro hmem
  by_cases ht : env.tokenPresent
  · rcases hu : env.username with _ | u
    · simp [create_model_pr, ht, hu] at hmem
    · by_cases hm : env.metadataOk
      · simp only [create_model_pr, ht, hu, hm, hpush, Bool.not_true,
          Bool.false_eq_true, if_false, Bool.not_false, if_true] at hmem
        exact updateModelMap_notin_forkFlow _ _ _ _ _ _ _ _ hmem
      · simp [create_model_pr, ht, hu, hm] at hmem
  · simp [create_model_pr, ht] at hmem

/-- Claim C3: without push access `create_model_pr` follows the
fork-based flow: it locates or creates a fork, creates the branch in
the fork, writes exactly README.md and metadata.json (no tree.json)
into the fork branch, opens a pull request with head username:branch
and base main on the upstream repository, and on no run of this path is
the catalog merge `update_model_map` invoked. -/
theorem c3_fork_based_flow :
    (∀ (env : Env) (u model_name description ipfs_cid : String) (timestamp : Nat),
      env.tokenPresent = true → env.username = some u → env.metadataOk = true →
      env.hasPush = false → env.forkOk = true → env.forkBranchOk = true →
      (∀ p, env.forkFileOk p = true) →
      create_model_pr env model_name description ipfs_cid timestamp
        = (env.forkPrUrl,
           [Event.getOrCreateFork,
            Event.createBranchInFork (branchName model_name timestamp) u,
            Event.createFileInFork
              ("models/" ++ u ++ "/" ++ slugify model_name ++ "/README.md")
              ("Add README for " ++ model_name)
              (branchName model_name timestamp) u,
            Event.createFileInFork
              ("models/" ++ u ++ "/" ++ slugify model_name ++ "/metadata.json")
              ("Add metadata for " ++ model_name)
              (branchName model_name timestamp) u,
            Event.createPRFromFork
              (u ++ ":" ++ branchName model_name timestamp) "main"]))
    ∧ (∀ (env : Env) (model_name description ipfs_cid br : String) (timestamp : Nat),
        env.hasPush = false →
        Event.updateModelMap br
          ∉ (create_model_pr env model_name description ipfs_cid timestamp).2) := by
  constructor
  · intro env u model_name description ipfs_cid timestamp ht hu hm hp hf hb hfile
    simp [create_model_pr, forkFlow, ht, hu, hm, hp, hf, hb,
      writeForkFiles_all_ok _ _ _ _ hfile, fork_files_to_create,
      create_pull_request_from_fork_request]
  · intro env model_name description ipfs_cid br timestamp hpush
    exact updateModelMap_notin_create_model_pr env model_name description
      ipfs_cid br timestamp hpush

/-- A sample environment for the fork path: no push access, fork and
all fork writes succeed. -/
def envFork : Env :=
  { tokenPresent := true, username := some "alice", hasPush := false,
    metadataOk := true, repoHasCommit := true, initialCommitOk := true,
    branchOk := true, fileOk := fun _ => true, modelMapOk := true,
    prUrl := some "https://github.com/octofacehub/octofacehub.github.io/pull/1",
    forkOk := true, forkBranchOk := true, forkFileOk := fun _ => true,
    forkPrUrl := some "https://github.com/octofacehub/octofacehub.github.io/pull/2",
    githubOk := true }

theorem c3_witness :
    create_model_pr envFork "My Model" "A desc" "cid123" 1700000000
      = (some "https://github.com/octofacehub/octofacehub.github.io/pull/2",
         [Event.getOrCreateFork,
          Event.createBranchInFork "add-model-my-model-1700000000" "alice",
          Event.createFileInFork "models/alice/my-model/README.md"
            "Add README for My Model" "add-model-my-model-1700000000" "alice",
          Event.createFileInFork "models/alice/my-model/metadata.json"
            "Add metadata for My Model" "add-model-my-model-1700000000" "alice",
          Event.createPRFromFork "alice:add-model-my-model-1700000000" "main"])
    ∧ Event.updateModelMap "add-model-my-model-1700000000"
        ∉ (create_model_pr envFork "My Model" "A desc" "cid123" 1700000000).2 :=
  ⟨(c3_fork_based_flow.1 envFork "alice" "My Model" "A desc" "cid123" 1700000000
      rfl rfl rfl rfl rfl rfl (fun _ => rfl)).trans (by rfl),
   c3_fork_based_flow.2 envFork "My Model" "A desc" "cid123"
      "add-model-my-model-1700000000" 1700000000 rfl⟩

/-- Claim C4: with push access `create_model_pr` checks that the
repository has a commit (bootstrapping an initial commit when main does
not exist), creates the branch from main, writes README.md,
metadata.json and tree.json in that order with one separate create_file
call per file, then merges the catalog, then opens a pull request with
head the branch name and base main; failure of any step returns none
and aborts the remaining steps while keeping the earlier events. -/
theorem c4_direct_push_flow (env : Env)
    (u model_name description ipfs_cid : String) (timestamp : Nat)
    (ht : env.tokenPresent = true) (hu : env.username = some u)
    (hm : env.metadataOk = true) (hp : env.hasPush = true) :
    (env.repoHasCommit = true → env.branchOk = true →
      (∀ p, env.fileOk p = true) → env.modelMapOk = true →
      create_model_pr env model_name description ipfs_cid timestamp
        = (env.prUrl,
           [Event.checkRepoHasCommit,
            Event.createBranch (branchName model_name timestamp) "main",
            Event.createFile
              ("models/" ++ u ++ "/" ++ slugify model_name ++ "/README.md")
              ("Add README for " ++ model_name) (branchName model_name timestamp),
            Event.createFile
              ("models/" ++ u ++ "/" ++ slugify model_name ++ "/metadata.json")
              ("Add metadata for " ++ model_name) (branchName model_name timestamp),
            Event.createFile
              ("models/" ++ u ++ "/" ++ slugify model_name ++ "/tree.json")
              ("Add file tree for " ++ model_name) (branchName model_name timestamp),
            Event.updateModelMap (branchName model_name timestamp),
            Event.createPR (branchName model_name timestamp) "main"]))
    ∧ (env.repoHasCommit = false → env.initialCommitOk = true →
        env.branchOk = true → (∀ p, env.fileOk p = true) → env.modelMapOk = true →
        create_model_pr env model_name description ipfs_cid timestamp
          = (env.prUrl,
             [Event.checkRepoHasCommit, Event.createInitialCommit,
              Event.createBranch (branchName model_name timestamp) "main",
              Event.createFile
                ("models/" ++ u ++ "/" ++ slugify model_name ++ "/README.md")
                ("Add README for " ++ model_name) (branchName model_name timestamp),
              Event.createFile
                ("models/" ++ u ++ "/" ++ slugify model_name ++ "/metadata.json")
                ("Add metadata for " ++ model_name) (branchName model_name timestamp),
              Event.createFile
                ("models/" ++ u ++ "/" ++ slugify model_name ++ "/tree.json")
                ("Add file tree for " ++ model_name) (branchName model_name timestamp),
              Event.updateModelMap (branchName model_name timestamp),
              Event.createPR (branchName model_name timestamp) "main"]))
    ∧ (env.repoHasCommit = false → env.initialCommitOk = false →
        create_model_pr env model_name description ipfs_cid timestamp
          = (none, [Event.checkRepoHasCommit, Event.createInitialCommit]))
    ∧ (env.repoHasCommit = true → env.branchOk = false →
        create_model_pr env model_name description ipfs_cid timestamp
          = (none, [Event.checkRepoHasCommit,
              Event.createBranch (branchName model_name timestamp) "main"]))
    ∧ (env.repoHasCommit = true → env.branchOk = true →
        env.fileOk ("models/" ++ u ++ "/" ++ slugify model_name ++ "/README.md")
            = false →
        create_model_pr env model_name description ipfs_cid timestamp
          = (none, [Event.checkRepoHasCommit,
              Event.createBranch (branchName model_name timestamp) "main",
              Event.createFile
                ("models/" ++ u ++ "/" ++ slugify model_name ++ "/README.md")
                ("Add README for " ++ model_name)
                (branchName model_name timestamp)]))
    ∧ (env.repoHasCommit = true → env.branchOk = true →
        (∀ p, env.fileOk p = true) → env.modelMapOk = false →
        create_model_pr env model_name description ipfs_cid timestamp
          = (none, [Event.checkRepoHasCommit,
              Event.createBranch (branchName model_name timestamp) "main",
              Event.createFile
                ("models/" ++ u ++ "/" ++ slugify model_name ++ "/README.md")
                ("Add README for " ++ model_name) (branchName model_name timestamp),
              Event.createFile
                ("models/" ++ u ++ "/" ++ slugify model_name ++ "/metadata.json")
                ("Add metadata for " ++ model_name) (branchName model_name timestamp),
              Event.createFile
                ("models/" ++ u ++ "/" ++ slugify model_name ++ "/tree.json")
                ("Add file tree for " ++ model_name) (branchName model_name timestamp),
              Event.updateModelMap (branchName model_name timestamp)])) := by
  refine ⟨?_, ?_, ?_, ?_, ?_, ?_⟩
  · intro hrepo hbr hfile hmap
    simp [create_model_pr, directFlow, directAfterInit, ht, hu, hm, hp, hrepo,
      hbr, hmap, writeFiles_all_ok _ _ _ hfile, files_to_create,
      create_pull_request_request]
  · intro hrepo hinit hbr hfile hmap
    simp [create_model_pr, directFlow, directAfterInit, ht, hu, hm, hp, hrepo,
      hinit, hbr, hmap, writeFiles_all_ok _ _ _ hfile, files_to_create,
      create_pull_request_request]
  · intro hrepo hinit
    simp [create_model_pr, directFlow, ht, hu, hm, hp, hrepo, hinit]
  · intro hrepo hbr
    simp [create_model_pr, directFlow, directAfterInit, ht, hu, hm, hp, hrepo, hbr]
  · intro hrepo hbr hreadme
    simp [create_model_pr, directFlow, directAfterInit, ht, hu, hm, hp, hrepo,
      hbr, files_to_create, writeFiles, hreadme]
  · intro hrepo hbr hfile hmap
    simp [create_model_pr, directFlow, directAfterInit, ht, hu, hm, hp, hrepo,
      hbr, hmap, writeFiles_all_ok _ _ _ hfile, files_to_create]

/-- A sample environment for the direct-push path: push access and
every call succeeds. -/
def envDirect : Env :=
  { tokenPresent := true, username := some "alice", hasPush := true,
    metadataOk := true, repoHasCommit := true, initialCommitOk := true,
    branchOk := true, fileOk := fun _ => true, modelMapOk := true,
    prUrl := some "https://github.com/octofacehub/octofacehub.github.io/pull/1",
    forkOk := true, forkBranchOk := true, forkFileOk := fun _ => true,
    forkPrUrl := some "https://github.com/octofacehub/octofacehub.github.io/pull/2",
    githubOk := true }

theorem c4_witness :
    create_model_pr envDirect "My Model" "A desc" "cid123" 1700000000
      = (some "https://github.com/octofacehub/octofacehub.github.io/pull/1",
         [Event.checkRepoHasCommit,
          Event.createBranch "add-model-my-model-1700000000" "main",
          Event.createFile "models/alice/my-model/README.md"
            "Add README for My Model" "add-model-my-model-1700000000",
          Event.createFile "models/alice/my-model/metadata.json"
            "Add metadata for My Model" "add-model-my-model-1700000000",
          Event.createFile "models/alice/my-model/tree.json"
            "Add file tree for My Model" "add-model-my-model-1700000000",
          Event.updateModelMap "add-model-my-model-1700000000",
          Event.createPR "add-model-my-model-1700000000" "main"]) :=
  ((c4_direct_push_flow envDirect "alice" "My Model" "A desc" "cid123"
    1700000000 rfl rfl rfl rfl).1 rfl rfl (fun _ => rfl) rfl).trans (by rfl)

/-- Claim C10: `utils.create_pull_request` is not equivalent to
`github.create_model_pr` on the direct-push path.  The wrapper appends
tree.json to its file list only when the metadata dict has a "path"
key; `generate_model_metadata` never produces that key; hence on
metadata it produces the wrapper writes only README.md and
metadata.json before the catalog merge, while `create_model_pr` always
writes all three files before the catalog merge, and the two event
traces differ. -/
theorem c10_wrapper_not_equivalent_direct_path :
    generate_model_metadata_keys.contains "path" = false
    ∧ (∀ genTreeTruthy model_dir name,
        wrapper_files_to_create generate_model_metadata_keys genTreeTruthy
            model_dir name
          = [(model_dir ++ "/README.md", "Add README for " ++ name),
             (model_dir ++ "/metadata.json", "Add metadata for " ++ name)])
    ∧ (∀ (env : Env) (u name description ipfs_cid : String) (ts : Nat)
          (genTreeTruthy : Bool),
        env.tokenPresent = true → env.username = some u → env.githubOk = true →
        env.metadataOk = true → env.hasPush = true → env.repoHasCommit = true →
        env.branchOk = true → (∀ p, env.fileOk p = true) → env.modelMapOk = true →
        (utils_create_pull_request env generate_model_metadata_keys genTreeTruthy
            name description ipfs_cid ts).2
          = [Event.checkRepoHasCommit,
             Event.createBranch (branchName name ts) "main",
             Event.createFile
               ("models/" ++ u ++ "/" ++ slugify name ++ "/README.md")
               ("Add README for " ++ name) (branchName name ts),
             Event.createFile
               ("models/" ++ u ++ "/" ++ slugify name ++ "/metadata.json")
               ("Add metadata for " ++ name) (branchName name ts),
             Event.updateModelMap (branchName name ts),
             Event.createPR (branchName name ts) "main"]
        ∧ (create_model_pr env name description ipfs_cid ts).2
          = [Event.checkRepoHasCommit,
             Event.createBranch (branchName name ts) "main",
             Event.createFile
               ("models/" ++ u ++ "/" ++ slugify name ++ "/README.md")
               ("Add README for " ++ name) (branchName name ts),
             Event.createFile
               ("models/" ++ u ++ "/" ++ slugify name ++ "/metadata.json")
               ("Add metadata for " ++ name) (branchName name ts),
             Event.createFile
               ("models/" ++ u ++ "/" ++ slugify name ++ "/tree.json")
               ("Add file tree for " ++ name) (branchName name ts),
             Event.updateModelMap (branchName name ts),
             Event.createPR (branchName name ts) "main"]
        ∧ (utils_create_pull_request env generate_model_metadata_keys genTreeTruthy
              name description ipfs_cid ts).2
            ≠ (create_model_pr env name description ipfs_cid ts).2) := by
  have hkeys : generate_model_metadata_keys.contains "path" = false := by decide
  have hfiles : ∀ (genTreeTruthy : Bool) (model_dir name : String),
      wrapper_files_to_create generate_model_metadata_keys genTreeTruthy
          model_dir name
        = [(model_dir ++ "/README.md", "Add README for " ++ name),
           (model_dir ++ "/metadata.json", "Add metadata for " ++ name)] := by
    intro genTreeTruthy model_dir name
    simp only [wrapper_files_to_create, wrapper_model_tree_truthy, hkeys,
      if_false, Bool.false_eq_true]
  refine ⟨hkeys, hfiles, ?_⟩
  intro env u name description ipfs_cid ts genTreeTruthy ht hu hg hm hp hrepo
    hbr hfile hmap
  have hwrap : (utils_create_pull_request env generate_model_metadata_keys
      genTreeTruthy name description ipfs_cid ts).2
      = [Event.checkRepoHasCommit,
         Event.createBranch (branchName name ts) "main",
         Event.createFile
           ("models/" ++ u ++ "/" ++ slugify name ++ "/README.md")
           ("Add README for " ++ name) (branchName name ts),
         Event.createFile
           ("models/" ++ u ++ "/" ++ slugify name ++ "/metadata.json")
           ("Add metadata for " ++ name) (branchName name ts),
         Event.updateModelMap (branchName name ts),
         Event.createPR (branchName name ts) "main"] := by
    simp [utils_create_pull_request, wrapperDirectAfterInit, ht, hu, hg, hp,
      hrepo, hbr, hmap, writeFiles_all_ok _ _ _ hfile, hfiles,
      create_pull_request_request]
  have hdirect : (create_model_pr env name description ipfs_cid ts).2
      = [Event.checkRepoHasCommit,
         Event.createBranch (branchName name ts) "main",
         Event.createFile
           ("models/" ++ u ++ "/" ++ slugify name ++ "/README.md")
           ("Add README for " ++ name) (branchName name ts),
         Event.createFile
           ("models/" ++ u ++ "/" ++ slugify name ++ "/metadata.json")
           ("Add metadata for " ++ name) (branchName name ts),
         Event.createFile
           ("models/" ++ u ++ "/" ++ slugify name ++ "/tree.json")
           ("Add file tree for " ++ name) (branchName name ts),
         Event.updateModelMap (branchName name ts),
         Event.createPR (branchName name ts) "main"] := by
    simp [create_model_pr, directFlow, directAfterInit, ht, hu, hm, hp, hrepo,
      hbr, hmap, writeFiles_all_ok _ _ _ hfile, files_to_create,
      create_pull_request_request]
  refine ⟨hwrap, hdirect, ?_⟩
  intro hcontra
  rw [hwrap, hdirect] at hcontra
  have hlen := congrArg List.length hcontra
  simp at hlen

theorem c10_witness :
    (utils_create_pull_request envDirect generate_model_metadata_keys true
        "My Model" "A desc" "cid123" 1700000000).2
      ≠ (create_model_pr envDirect "My Model" "A desc" "cid123" 1700000000).2 :=
  (c10_wrapper_not_equivalent_direct_path.2.2 envDirect "alice" "My Model"
    "A desc" "cid123" 1700000000 true rfl rfl rfl rfl rfl rfl rfl
    (fun _ => rfl) rfl).2.2

/-- Outcome of `download_model` inside the `download` CLI command:
a returned path, a falsy return value, or a raised exception. -/
inductive DownloadOutcome where
  | success (path : String)
  | failedNone
  | raised
  deriving DecidableEq

/-- The `download` CLI command (cli.py lines 50-64), as the pair
(process exit code, whether a failure was reported).  A falsy result
prints a failure message but does not call sys.exit, so the process
exits 0; only a raised exception reaches the sys.exit(1) handler. -/
def download_cmd : DownloadOutcome → Nat × Bool
  | .success _ => (0, false)
  | .failedNone => (0, true)
  | .raised => (1, true)

/-- The `upload` CLI command (cli.py lines 88-165), as the pair
(exit code, whether a failure was reported), from the results of its
steps: token present, whether the path is an hf:// id and the hub
download result, the resolved model name (after defaulting to the
directory name), the IPFS upload CID, the GitHub access test, and the
PR URL from `create_model_pr`.  Every failing step prints a message and
calls sys.exit(1); success returns normally (exit 0). -/
def upload_cmd (tokenPresent : Bool) (hfPath : Bool) (hfResult : Option String)
    (name : Option String) (cid : Option String) (githubOk : Bool)
    (prUrl : Option String) : Nat × Bool :=
  if !tokenPresent then (1, true)
  else if hfPath && hfResult.isNone then (1, true)
  else match name with
    | none => (1, true)
    | some _ =>
      match cid with
      | none => (1, true)
      | some _ =>
        if !githubOk then (1, true)
        else match prUrl with
          | some _ => (0, false)
          | none => (1, true)

/-- Claim C8 counterexample: when `download_model` returns a falsy
result without raising, the `download` command reports a failure
("Failed to download model") yet the process exits with code 0, not 1. -/
theorem c8_counterexample_download_exit_zero :
    (download_cmd .failedNone).2 = true ∧ ¬(download_cmd .failedNone).1 = 1 := by
  decide

/-- Claim C8 (amended): the `upload` command exits 0 on success and 1
on any reported failure, with no distinct codes per failure kind; the
`download` command exits 1 when an exception is raised but exits 0 when
the download merely returns no result, even though that failure is
reported. -/
theorem c8_amended_exit_codes :
    (∀ (tokenPresent hfPath : Bool) (hfResult name cid : Option String)
        (githubOk : Bool) (prUrl : Option String),
      ((upload_cmd tokenPresent hfPath hfResult name cid githubOk prUrl).2 = true →
        (upload_cmd tokenPresent hfPath hfResult name cid githubOk prUrl).1 = 1)
      ∧ ((upload_cmd tokenPresent hfPath hfResult name cid githubOk prUrl).2 = false →
        (upload_cmd tokenPresent hfPath hfResult name cid githubOk prUrl).1 = 0))
    ∧ (∀ s, download_cmd (.success s) = (0, false))
    ∧ download_cmd .failedNone = (0, true)
    ∧ download_cmd .raised = (1, true) := by
  refine ⟨?_, fun s => rfl, rfl, rfl⟩
  intro tokenPresent hfPath hfResult name cid githubOk prUrl
  cases tokenPresent <;> cases hfPath <;> cases hfResult <;> cases name <;>
    cases cid <;> cases githubOk <;> cases prUrl <;>
    simp [upload_cmd]

theorem c8_witness :
    (upload_cmd true false none (some "My Model") (some "cid123") true
        (some "https://github.com/octofacehub/octofacehub.github.io/pull/1")).1 = 0
    ∧ (upload_cmd false false none none none false none).1 = 1 :=
  ⟨(c8_amended_exit_codes.1 true false none (some "My Model") (some "cid123")
      true (some "https://github.com/octofacehub/octofacehub.github.io/pull/1")).2 rfl,
   (c8_amended_exit_codes.1 false false none none none false none).1 rfl⟩

/-- The positional-parameter bounds of a Python function: calls with
fewer than `minPositional` or more than `maxPositional` positional
arguments raise TypeError. -/
structure PySignature where
  minPositional : Nat
  maxPositional : Nat
  deriving DecidableEq

/-- Whether a call with `nargs` positional arguments raises TypeError
against the given signature. -/
def callRaisesTypeError (sig : PySignature) (nargs : Nat) : Bool :=
  decide (nargs < sig.minPositional) || decide (sig.maxPositional < nargs)

/-- `utils.generate_readme(metadata, model_path=None)` (utils.py line
144): one required and one optional positional parameter. -/
def generate_readme_sig : PySignature := ⟨1, 2⟩

/-- `utils.generate_model_metadata(name, description, tags, cid,
model_path=None)` (utils.py line 91). -/
def generate_model_metadata_sig : PySignature := ⟨4, 5⟩

/-- The call `generate_readme(name, description, tags_list, cid)` at
cli.py line 360 passes four positional arguments. -/
def generate_files_readme_nargs : Nat := 4

/-- Outcome of a `generate-files` run: an early sys.exit(1), the
TypeError raised at the README-generation step, or completion. -/
inductive GenFilesOutcome where
  | exitEarly
  | typeError
  | completed
  deriving DecidableEq

/-- The `generate-files` CLI command up to the README-generation step
(cli.py lines 317-363): the hf:// download, the cid/path requirement
and the IPFS upload can each exit early; a run that passes them calls
`generate_model_metadata` (4 positional arguments, within its
signature) and then `generate_readme` with four positional arguments. -/
def generate_files_cmd (hfPath : Bool) (hfResult : Option String)
    (cid : Option String) (path : Option String) (uploadCid : Option String) :
    GenFilesOutcome :=
  if hfPath && hfResult.isNone then .exitEarly
  else
    let path2 := if hfPath then hfResult else path
    if cid.isNone && path2.isSome && uploadCid.isNone then .exitEarly
    else if cid.isNone && path2.isNone then .exitEarly
    else if callRaisesTypeError generate_readme_sig generate_files_readme_nargs
      then .typeError
    else .completed

/-- Claim C9: the `generate-files` command calls `generate_readme`
with four positional arguments while `generate_readme` accepts at most
two, so every invocation that reaches the README-generation step raises
a TypeError (the preceding `generate_model_metadata` call is within its
signature) and the command never completes successfully on any input. -/
theorem c9_generate_files_always_type_error :
    callRaisesTypeError generate_readme_sig generate_files_readme_nargs = true
    ∧ callRaisesTypeError generate_model_metadata_sig 4 = false
    ∧ ∀ (hfPath : Bool) (hfResult cid path uploadCid : Option String),
        generate_files_cmd hfPath hfResult cid path uploadCid = .exitEarly
        ∨ generate_files_cmd hfPath hfResult cid path uploadCid = .typeError := by
  refine ⟨by decide, by decide, ?_⟩
  intro hfPath hfResult cid path uploadCid
  cases hfPath <;> cases hfResult <;> cases cid <;> cases path <;>
    cases uploadCid <;> simp [generate_files_cmd, callRaisesTypeError,
      generate_readme_sig, generate_files_readme_nargs]

theorem c9_witness :
    generate_files_cmd false none (some "cid123") none none = .exitEarly
    ∨ generate_files_cmd false none (some "cid123") none none = .typeError :=
  c9_generate_files_always_type_error.2.2 false none (some "cid123") none none

end Octoface
